import Mathlib

/-!
Shallow embedding of `src/seo_blog_generator.py` (an SEO blog-article
generator): input validation, the regex-based response parsers
(`extract_titles_only`, `extract_outline_structure`, `extract_title_and_meta`),
and the article-generation pipeline inside `main` (outline call, per-section
generation loop, final assembly, session-state update).

Strings are modelled as `List Char`.  The generation API (`anthropic` client)
is modelled as an oracle (`GenClient`) giving the result of the outline call
and of the i-th section call; `None`/exception is `none`, a returned text is
`some`.  Python truthiness of strings is `≠ []`.
-/

namespace SEOBlog

/-- Characters stripped by Python `str.strip()` / matched by `\s` on `str`
(the Unicode whitespace set of CPython). -/
def isPyWs (c : Char) : Bool :=
  c = ' ' || c = '\t' || c = '\n' || c = '\x0b' || c = '\x0c' || c = '\r' ||
  c = '\x1c' || c = '\x1d' || c = '\x1e' || c = '\x1f' || c = '\x85' || c = '\xa0' ||
  c = '\u1680' || ('\u2000' ≤ c && c ≤ '\u200a') || c = '\u2028' || c = '\u2029' ||
  c = '\u202f' || c = '\u205f' || c = '\u3000'

/-- Convenience: the character list of a string literal. -/
def strChars (s : String) : List Char := s.data

/-- Python `str.strip()`: remove whitespace from both ends. -/
def pyStrip (s : List Char) : List Char :=
  ((s.dropWhile isPyWs).reverse.dropWhile isPyWs).reverse

/-- The regex fragment `(.+?)(?:\n|$)` tried at the current position:
`.` does not match a newline, the lazy `+?` stops at the first position
followed by a newline or the end of the string.  Returns group 1. -/
def lazyDotPlus (t : List Char) : Option (List Char) :=
  match t with
  | [] => none
  | c :: _ => if c = '\n' then none else some (t.takeWhile (fun d => d ≠ '\n'))

/-- The regex fragment `\s*(.+?)(?:\n|$)` tried at the current position,
with Python's greedy-then-backtrack semantics for `\s*` (longest whitespace
run first, shrinking on failure).  Returns group 1. -/
def matchTail : List Char → Option (List Char)
  | [] => none
  | c :: rest =>
    if isPyWs c then
      match matchTail rest with
      | some g => some g
      | none => lazyDotPlus (c :: rest)
    else lazyDotPlus (c :: rest)

/-- `re.search` for a pattern of the shape `LITERAL\s*(.+?)(?:\n|$)`:
scan left to right for the first position where the literal prefix matches
and the tail succeeds; return group 1 of that leftmost match.
All three regexes of the source have this shape. -/
def searchPat (pat : List Char) : List Char → Option (List Char)
  | [] => none
  | c :: rest =>
    if pat.isPrefixOf (c :: rest) then
      match matchTail (List.drop pat.length (c :: rest)) with
      | some g => some g
      | none => searchPat pat rest
    else searchPat pat rest

/-- Worker for `removeAll`: while `skip > 0` we are inside a matched
occurrence and drop characters; at `skip = 0` we test for the next
occurrence (structural recursion on the character list, so the kernel can
evaluate it). -/
def removeAllGo (pat : List Char) : Nat → List Char → List Char
  | _, [] => []
  | skip + 1, _ :: rest => removeAllGo pat skip rest
  | 0, c :: rest =>
    if pat ≠ [] ∧ pat.isPrefixOf (c :: rest) then
      removeAllGo pat (pat.length - 1) rest
    else
      c :: removeAllGo pat 0 rest

/-- Python `str.replace(pat, '')`: remove every (non-overlapping, leftmost)
occurrence of `pat`. -/
def removeAll (pat : List Char) (s : List Char) : List Char :=
  removeAllGo pat 0 s

/-- Result of `SEOBlogGenerator.extract_titles_only`. -/
structure TitleSet where
  title_candidates : List (List Char)
  recommended_title : List Char
deriving DecidableEq, Repr

/-- The five numbered-item literals `1.` … `5.` searched by the loop
`for i in range(1, 6)` of `extract_titles_only`. -/
def titleNumerals : List (List Char) :=
  [strChars "1.", strChars "2.", strChars "3.", strChars "4.", strChars "5."]

/-- `SEOBlogGenerator.extract_titles_only` (source lines 145-160): for each
i in 1..5 search `i\.\s*(.+?)(?:\n|$)` and append the stripped group when
found; the recommended title comes from `\*\*推奨タイトル:\*\*\s*(.+?)(?:\n|$)`,
empty when absent. -/
def extract_titles_only (response : List Char) : TitleSet :=
  let cands := titleNumerals.filterMap (fun p => (searchPat p response).map pyStrip)
  let recommended :=
    match searchPat (strChars "**推奨タイトル:**") response with
    | some g => pyStrip g
    | none => []
  ⟨cands, recommended⟩

/-- A parsed outline section: dict `{'title': ..., 'subsections': [...]}`. -/
structure OutlineSection where
  title : List Char
  subsections : List (List Char)
deriving DecidableEq, Repr

/-- Result of `SEOBlogGenerator.extract_outline_structure`. -/
structure OutlineStructure where
  intro : List Char
  sections : List OutlineSection
deriving DecidableEq, Repr

/-- The H2-opener test of the outline scanner:
`line.startswith('## ') and not line.startswith('## まとめ')`. -/
def isH2Opener (line : List Char) : Bool :=
  (strChars "## ").isPrefixOf line && !((strChars "## まとめ").isPrefixOf line)

/-- The H3 test of the outline scanner: `line.startswith('### ')`. -/
def isH3 (line : List Char) : Bool :=
  (strChars "### ").isPrefixOf line

/-- One iteration of the line loop of `extract_outline_structure`
(source lines 304-318), acting on `(sections, current_section)`. -/
def outlineStep (acc : List OutlineSection × Option OutlineSection)
    (rawLine : List Char) : List OutlineSection × Option OutlineSection :=
  let line := pyStrip rawLine
  if isH2Opener line then
    (acc.1 ++ acc.2.toList, some ⟨removeAll (strChars "## ") line, []⟩)
  else if isH3 line then
    match acc.2 with
    | some cur => (acc.1, some ⟨cur.title, cur.subsections ++ [removeAll (strChars "### ") line]⟩)
    | none => acc
  else acc

/-- `SEOBlogGenerator.extract_outline_structure` (source lines 298-331):
split on newlines, run the line loop, append the trailing current section,
and extract the intro via `\*\*導入文:\*\*\s*(.+?)(?:\n|$)` on the whole text. -/
def extract_outline_structure (outline : List Char) : OutlineStructure :=
  let res := List.foldl outlineStep ([], none) (outline.splitOn '\n')
  let secs := res.1 ++ res.2.toList
  let intro :=
    match searchPat (strChars "**導入文:**") outline with
    | some g => pyStrip g
    | none => []
  ⟨intro, secs⟩

/-- `SEOBlogGenerator.extract_title_and_meta` (source lines 333-339), the
`"intro"` field: the same intro regex, with the fixed not-found sentinel. -/
def extract_title_and_meta (article : List Char) : List Char :=
  match searchPat (strChars "**導入文:**") article with
  | some g => pyStrip g
  | none => strChars "導入文が見つかりません"

/-- Result of `SEOBlogGenerator.validate_inputs`. -/
structure ValidationResult where
  is_valid : Bool
  errors : List (List Char)
deriving DecidableEq, Repr

/-- `SEOBlogGenerator.validate_inputs` (source lines 76-92): error strings
are collected in order keyword, genre, audience; valid iff no errors. -/
def validate_inputs (keyword genre target_audience : List Char) : ValidationResult :=
  let errors :=
    (if keyword = [] ∨ (pyStrip keyword).length < 2 then
      [strChars "メインキーワードは2文字以上で入力してください"] else [])
    ++ (if genre = [] then [strChars "記事のジャンルを選択してください"] else [])
    ++ (if target_audience = [] then [strChars "想定読者層を選択してください"] else [])
  ⟨errors.isEmpty, errors⟩

/-- Oracle for the generation API (`anthropic` client wrapped by
`generate_outline` / `generate_section`): the outline call's result and the
result of the i-th section call (0-indexed in call order).  `none` models an
exception caught inside the generator method (which returns `None`); the
methods catch their own exceptions, so callers only ever see the value. -/
structure GenClient where
  outlineResult : Option (List Char)
  sectionResult : Nat → Option (List Char)

/-- The Streamlit session state touched by a pipeline run:
`generated_article`, `generation_completed`, and the previously selected
title read at assembly time. -/
structure SessionState where
  generated_article : List Char
  generation_completed : Bool
  selected_title : List Char
deriving DecidableEq, Repr

/-- Terminal outcome of one "記事を生成" run of `main` (source lines 495-588). -/
inductive RunOutcome where
  | validationFailed (errors : List (List Char))
  | outlineFailed (message : List Char)
  | done (article : List Char) (sectionCount : Nat)
deriving DecidableEq, Repr

/-- Whether an outcome is the success outcome. -/
def RunOutcome.isDone : RunOutcome → Bool
  | .done _ _ => true
  | _ => false

/-- The error message shown when the outline call returns a falsy value
(source line 521). -/
def outlineFailMsg : List Char := strChars "構成の生成に失敗しました。"

/-- The section loop of `main` (source lines 534-548), iterating over the
parsed sections with 0-based index `i`: report progress
`int(35 + 50 * (i + 1) / total)` (exact integer arithmetic: the float is
exact enough that truncation equals the rational floor), call
`generate_section`, and append the body only when it is truthy.
Returns (accumulated bodies in order, progress values in order). -/
def sectionLoop (client : GenClient) (total : Nat) :
    List OutlineSection → Nat → List (List Char) × List Nat
  | [], _ => ([], [])
  | _ :: rest, i =>
    let prog := 35 + (50 * (i + 1)) / total
    let res := sectionLoop client total rest (i + 1)
    match client.sectionResult i with
    | some body => if body = [] then (res.1, prog :: res.2) else (body :: res.1, prog :: res.2)
    | none => (res.1, prog :: res.2)

/-- The final-assembly template of `main` (source lines 554-571): intro
block, body label, optional selected-title heading, the intro again, each
section body followed by a blank line, and the fixed closing section
mentioning the keyword and the target audience. -/
def assembleArticle (intro selected_title : List Char) (bodies : List (List Char))
    (keyword target_audience : List Char) : List Char :=
  strChars "**導入文:** " ++ intro ++ strChars "\n\n" ++
  strChars "**記事本文:**\n\n" ++
  (if selected_title = [] then [] else strChars "# " ++ selected_title ++ strChars "\n\n") ++
  intro ++ strChars "\n\n" ++
  (bodies.foldl (fun acc b => acc ++ b ++ strChars "\n\n") []) ++
  strChars "## まとめ\n\n" ++
  strChars "本記事では、" ++ keyword ++ strChars "について詳しく解説しました。" ++
  strChars "各ポイントを実践することで、" ++ target_audience ++
  strChars "の方でも効果的に活用できるでしょう。"

/-- Observable result of one run: the terminal outcome, how many outline
and section generation calls were issued, the progress values reported to
the progress bar (including its creation at 0), and the session state
afterwards. -/
structure RunResult where
  outcome : RunOutcome
  outlineCalls : Nat
  sectionCalls : Nat
  progressEvents : List Nat
  finalState : SessionState
deriving Repr

/-- The "記事を生成" branch of `main` (source lines 495-588), with the API
key present (the `not api_key` guard precedes everything modelled here):
validate; on errors report them and stop with no generation call; otherwise
create the progress bar, call the outline generation, fail on a falsy
result, else parse the outline, run the section loop, assemble the final
article, and store it with the completion flag in the session state. -/
def runPipeline (client : GenClient) (s : SessionState)
    (keyword genre target_audience : List Char) : RunResult :=
  let v := validate_inputs keyword genre target_audience
  if v.is_valid then
    match client.outlineResult with
    | none => ⟨.outlineFailed outlineFailMsg, 1, 0, [0, 25], s⟩
    | some outline =>
      if outline = [] then ⟨.outlineFailed outlineFailMsg, 1, 0, [0, 25], s⟩
      else
        let parsed := extract_outline_structure outline
        let total := parsed.sections.length
        let looped := sectionLoop client total parsed.sections 0
        let article := assembleArticle parsed.intro s.selected_title looped.1
          keyword target_audience
        ⟨.done article looped.1.length, 1, total,
         [0, 25, 35] ++ looped.2 ++ [95, 100],
         { s with generated_article := article, generation_completed := true }⟩
  else ⟨.validationFailed v.errors, 0, 0, [], s⟩

/-- The title-only generation path behind the "タイトル候補を生成" button
(source lines 422-435): the call to `generate_titles` is issued iff the API
key is present and the keyword is truthy with stripped length ≥ 2 — genre
and target audience are NOT checked; when issued, the call receives the
keyword, genre and audience as they are. -/
def titleButtonRun (api_key_present : Bool) (keyword genre target_audience : List Char) :
    Option (List Char × List Char × List Char) :=
  if api_key_present ∧ ¬(keyword = [] ∨ (pyStrip keyword).length < 2) then
    some (keyword, genre, target_audience)
  else none

/-- Truthy filter applied by the loop to a section call's result
(`if section_content:`). -/
def toBody : Option (List Char) → Option (List Char)
  | some b => if b = [] then none else some b
  | none => none

/-- The bodies that survive the section loop when the outline has `n`
sections: the truthy results of calls 0..n-1, in call order. -/
def successfulBodies (client : GenClient) (n : Nat) : List (List Char) :=
  (List.range n).filterMap (fun i => toBody (client.sectionResult i))

/-- The section loop is the pointwise filter/map over the call indices
`i, i+1, …, i + secs.length - 1`. -/
theorem sectionLoop_eq (client : GenClient) (total : Nat) :
    ∀ (secs : List OutlineSection) (i : Nat),
      sectionLoop client total secs i =
        ((List.range' i secs.length).filterMap (fun j => toBody (client.sectionResult j)),
         (List.range' i secs.length).map (fun j => 35 + (50 * (j + 1)) / total))
  | [], i => by simp [sectionLoop]
  | _ :: rest, i => by
    have ih := sectionLoop_eq client total rest (i + 1)
    simp only [sectionLoop, ih, List.length_cons, List.range'_succ, List.filterMap_cons,
      List.map_cons]
    cases h : client.sectionResult i with
    | none => simp [toBody, h]
    | some b => by_cases hb : b = [] <;> simp [toBody, h, hb]

/-- A `filterMap` whose function succeeds on every element keeps the length. -/
theorem filterMap_length_all_some {α β : Type} (f : α → Option β) :
    ∀ l : List α, (∀ x ∈ l, (f x).isSome = true) → (l.filterMap f).length = l.length
  | [], _ => rfl
  | x :: rest, h => by
    have hx := h x (by simp)
    obtain ⟨b, hb⟩ := Option.isSome_iff_exists.mp hx
    have ih := filterMap_length_all_some f rest (fun y hy => h y (by simp [hy]))
    simp [List.filterMap_cons, hb, ih]

/-- A `filterMap` over `range' s n` whose function fails at exactly one index
of the range has length `n - 1`. -/
theorem filterMap_length_one_none {β : Type} (f : Nat → Option β) :
    ∀ (n s j : Nat), s ≤ j → j < s + n → f j = none →
      (∀ i, s ≤ i → i < s + n → i ≠ j → (f i).isSome = true) →
      ((List.range' s n).filterMap f).length = n - 1
  | 0, s, j, hsj, hj, _, _ => by omega
  | n + 1, s, j, hsj, hj, hnone, hsome => by
    rw [List.range'_succ, List.filterMap_cons]
    by_cases hs : s = j
    · subst hs
      rw [hnone]
      have hall : ((List.range' (s + 1) n).filterMap f).length =
          (List.range' (s + 1) n).length := by
        apply filterMap_length_all_some
        intro x hx
        have hx' := List.mem_range'_1.mp hx
        exact hsome x (by omega) (by omega) (by omega)
      rw [List.length_range'] at hall
      simpa using hall
    · have hs' := hsome s (by omega) (by omega) hs
      obtain ⟨b, hb⟩ := Option.isSome_iff_exists.mp hs'
      rw [hb]
      have ih := filterMap_length_one_none f n (s + 1) j (by omega) (by omega) hnone
        (fun i h1 h2 h3 => hsome i (by omega) (by omega) h3)
      simp only [List.length_cons, ih]
      omega

/-- Validity of `validate_inputs` unpacked to the three field conditions. -/
theorem validate_inputs_valid_iff (kw ge au : List Char) :
    (validate_inputs kw ge au).is_valid = true ↔
      (kw ≠ [] ∧ 2 ≤ (pyStrip kw).length ∧ ge ≠ [] ∧ au ≠ []) := by
  by_cases hkw : kw = [] <;> by_cases hlen : (pyStrip kw).length < 2 <;>
    by_cases h2 : ge = [] <;> by_cases h3 : au = []
  all_goals simp [validate_inputs, hkw, hlen, h2, h3]
  all_goals omega

/-- Invalid inputs: the run stops before any generation call, reporting the
validation errors, with the session state untouched. -/
theorem runPipeline_invalid (client : GenClient) (s : SessionState) (kw ge au : List Char)
    (h : (validate_inputs kw ge au).is_valid = false) :
    runPipeline client s kw ge au =
      ⟨.validationFailed (validate_inputs kw ge au).errors, 0, 0, [], s⟩ := by
  simp [runPipeline, h]

/-- Falsy outline result: the run stops with the outline-stage error, with
no section call and the session state untouched. -/
theorem runPipeline_outlineFailed (client : GenClient) (s : SessionState) (kw ge au : List Char)
    (hv : (validate_inputs kw ge au).is_valid = true)
    (h : client.outlineResult = none ∨ client.outlineResult = some []) :
    runPipeline client s kw ge au = ⟨.outlineFailed outlineFailMsg, 1, 0, [0, 25], s⟩ := by
  rcases h with h | h <;> simp [runPipeline, hv, h]

/-- Truthy outline result: the run always reaches the success outcome, with
one section call per parsed section, the documented progress values, and the
assembled article stored in the session state. -/
theorem runPipeline_done (client : GenClient) (s : SessionState) (kw ge au t : List Char)
    (hv : (validate_inputs kw ge au).is_valid = true)
    (hout : client.outlineResult = some t) (ht : t ≠ []) :
    runPipeline client s kw ge au =
      ⟨.done (assembleArticle (extract_outline_structure t).intro s.selected_title
          (successfulBodies client (extract_outline_structure t).sections.length) kw au)
        (successfulBodies client (extract_outline_structure t).sections.length).length,
       1, (extract_outline_structure t).sections.length,
       [0, 25, 35] ++ (List.range (extract_outline_structure t).sections.length).map
          (fun i => 35 + (50 * (i + 1)) / (extract_outline_structure t).sections.length) ++
         [95, 100],
       { s with
          generated_article := assembleArticle (extract_outline_structure t).intro
            s.selected_title
            (successfulBodies client (extract_outline_structure t).sections.length) kw au,
          generation_completed := true }⟩ := by
  have hloop := sectionLoop_eq client (extract_outline_structure t).sections.length
    (extract_outline_structure t).sections 0
  simp only [runPipeline, hv, if_true, hout, ht, if_false, hloop, successfulBodies,
    List.range_eq_range']

/-- A section whose title was produced by some line passing the H2-opener
test (so never by the literal closing/summary heading line, which fails
that test). -/
def fromOpenerLine (sec : OutlineSection) : Prop :=
  ∃ line : List Char, isH2Opener line = true ∧
    sec.title = removeAll (strChars "## ") line

/-- One step of the outline scanner preserves the opener-origin invariant
for both the finished sections and the current section. -/
theorem outlineStep_fromOpener (acc : List OutlineSection × Option OutlineSection)
    (rawLine : List Char)
    (h1 : ∀ sec ∈ acc.1, fromOpenerLine sec)
    (h2 : ∀ sec ∈ acc.2.toList, fromOpenerLine sec) :
    (∀ sec ∈ (outlineStep acc rawLine).1, fromOpenerLine sec) ∧
    (∀ sec ∈ (outlineStep acc rawLine).2.toList, fromOpenerLine sec) := by
  by_cases hop : isH2Opener (pyStrip rawLine)
  · constructor
    · intro sec hmem
      simp only [outlineStep, hop, if_true] at hmem
      rcases List.mem_append.mp hmem with hm | hm
      · exact h1 sec hm
      · exact h2 sec hm
    · intro sec hmem
      simp only [outlineStep, hop, if_true, Option.toList_some, List.mem_singleton] at hmem
      exact ⟨pyStrip rawLine, hop, by rw [hmem]⟩
  · by_cases h3 : isH3 (pyStrip rawLine)
    · cases hacc : acc.2 with
      | none =>
        have : outlineStep acc rawLine = acc := by
          simp [outlineStep, hop, h3, hacc]
        rw [this]
        exact ⟨h1, h2⟩
      | some cur =>
        have hstep : outlineStep acc rawLine =
            (acc.1, some ⟨cur.title, cur.subsections ++
              [removeAll (strChars "### ") (pyStrip rawLine)]⟩) := by
          simp [outlineStep, hop, h3, hacc]
        rw [hstep]
        refine ⟨h1, ?_⟩
        intro sec hmem
        simp only [Option.toList_some, List.mem_singleton] at hmem
        obtain ⟨l, hl, htitle⟩ := h2 cur (by simp [hacc])
        exact ⟨l, hl, by rw [hmem]; exact htitle⟩
    · have : outlineStep acc rawLine = acc := by
        simp [outlineStep, hop, h3]
      rw [this]
      exact ⟨h1, h2⟩

/-- The whole line loop preserves the opener-origin invariant. -/
theorem foldl_outlineStep_fromOpener :
    ∀ (lines : List (List Char)) (acc : List OutlineSection × Option OutlineSection),
      (∀ sec ∈ acc.1, fromOpenerLine sec) →
      (∀ sec ∈ acc.2.toList, fromOpenerLine sec) →
      (∀ sec ∈ (List.foldl outlineStep acc lines).1, fromOpenerLine sec) ∧
      (∀ sec ∈ (List.foldl outlineStep acc lines).2.toList, fromOpenerLine sec)
  | [], _, h1, h2 => ⟨h1, h2⟩
  | raw :: rest, acc, h1, h2 => by
    have hstep := outlineStep_fromOpener acc raw h1 h2
    simpa using foldl_outlineStep_fromOpener rest (outlineStep acc raw) hstep.1 hstep.2

/-- When no line passes the H2-opener test the line loop never leaves the
initial state: H3 lines with no current section are dropped. -/
theorem foldl_outlineStep_no_opener :
    ∀ lines : List (List Char),
      (∀ raw ∈ lines, isH2Opener (pyStrip raw) = false) →
      List.foldl outlineStep ([], none) lines = ([], none)
  | [], _ => rfl
  | raw :: rest, h => by
    have h0 := h raw (by simp)
    have hstep : outlineStep ([], none) raw = ([], none) := by
      by_cases h3 : isH3 (pyStrip raw) <;> simp [outlineStep, h0, h3]
    rw [List.foldl_cons, hstep]
    exact foldl_outlineStep_no_opener rest (fun r hr => h r (by simp [hr]))

/-- Empty session state (fresh session: no stored article, flag unset,
no selected title). -/
def s0 : SessionState := ⟨[], false, []⟩

/-- Scenario-B outline: an intro line and three H2 sections. -/
def oB : List Char := strChars "**導入文:** I\n## S1\n## S2\n## S3"

/-- Scenario-B client: the outline succeeds, section call 1 (the second
section) fails, the other section calls return a non-empty body. -/
def clientB : GenClient := ⟨some oB, fun i => if i = 1 then none else some (strChars "B")⟩

/-- C1: in a run whose outline parses to N sections where exactly one
section call fails (call j returns no truthy text) and every other call
succeeds, the pipeline still reaches the success outcome; the article is
assembled from exactly the successful bodies in their original relative
order (`successfulBodies`), and the reported section count is N - 1, the
number of successful sections. -/
theorem claim_C1_partial_section_failure (client : GenClient) (s : SessionState)
    (kw ge au t : List Char) (j : Nat)
    (hv : (validate_inputs kw ge au).is_valid = true)
    (hout : client.outlineResult = some t) (ht : t ≠ [])
    (hj : j < (extract_outline_structure t).sections.length)
    (hfail : toBody (client.sectionResult j) = none)
    (hok : ∀ i < (extract_outline_structure t).sections.length, i ≠ j →
      (toBody (client.sectionResult i)).isSome = true) :
    (runPipeline client s kw ge au).outcome =
      .done (assembleArticle (extract_outline_structure t).intro s.selected_title
          (successfulBodies client (extract_outline_structure t).sections.length) kw au)
        ((extract_outline_structure t).sections.length - 1) ∧
    (successfulBodies client (extract_outline_structure t).sections.length).length =
      (extract_outline_structure t).sections.length - 1 := by
  have hd := runPipeline_done client s kw ge au t hv hout ht
  have hlen : (successfulBodies client (extract_outline_structure t).sections.length).length
      = (extract_outline_structure t).sections.length - 1 := by
    unfold successfulBodies
    rw [List.range_eq_range']
    exact filterMap_length_one_none _ _ 0 j (by omega) (by omega) hfail
      (fun i h1 h2 h3 => hok i (by omega) h3)
  refine ⟨?_, hlen⟩
  rw [hd, ← hlen]

/-- Witness for C1 at scenario B: three parsed sections, call 1 fails,
calls 0 and 2 succeed; the run is Done with section count 3 - 1 = 2. -/
theorem claim_C1_partial_section_failure_witness :
    (toBody (clientB.sectionResult 1) = none) ∧
    (runPipeline clientB s0 (strChars "ab") (strChars "g") (strChars "a")).outcome =
      .done (assembleArticle (extract_outline_structure oB).intro s0.selected_title
          (successfulBodies clientB (extract_outline_structure oB).sections.length)
          (strChars "ab") (strChars "a"))
        ((extract_outline_structure oB).sections.length - 1) ∧
    (successfulBodies clientB (extract_outline_structure oB).sections.length).length =
      (extract_outline_structure oB).sections.length - 1 :=
  ⟨by decide,
   (claim_C1_partial_section_failure clientB s0 (strChars "ab") (strChars "g") (strChars "a")
     oB 1 (by decide) rfl (by decide) (by decide) (by decide) (by decide)).1,
   (claim_C1_partial_section_failure clientB s0 (strChars "ab") (strChars "g") (strChars "a")
     oB 1 (by decide) rfl (by decide) (by decide) (by decide) (by decide)).2⟩

/-- C2: when the outline call fails (`None`) or returns empty text, the run
terminates in the failed state carrying the outline-stage error message,
issues zero section calls, and leaves the session state (hence the stored
article) untouched. -/
theorem claim_C2_outline_failure (client : GenClient) (s : SessionState)
    (kw ge au : List Char)
    (hv : (validate_inputs kw ge au).is_valid = true)
    (hfail : client.outlineResult = none ∨ client.outlineResult = some []) :
    (runPipeline client s kw ge au).outcome = .outlineFailed outlineFailMsg ∧
    outlineFailMsg ≠ [] ∧
    (runPipeline client s kw ge au).sectionCalls = 0 ∧
    (runPipeline client s kw ge au).finalState = s := by
  have h := runPipeline_outlineFailed client s kw ge au hv hfail
  refine ⟨by rw [h], by decide, by rw [h], by rw [h]⟩

/-- Witness for C2: a client whose outline call fails, on valid inputs. -/
theorem claim_C2_outline_failure_witness :
    ((validate_inputs (strChars "ab") (strChars "g") (strChars "a")).is_valid = true) ∧
    (runPipeline ⟨none, fun _ => none⟩ s0 (strChars "ab") (strChars "g")
        (strChars "a")).outcome = .outlineFailed outlineFailMsg ∧
    (runPipeline ⟨none, fun _ => none⟩ s0 (strChars "ab") (strChars "g")
        (strChars "a")).sectionCalls = 0 ∧
    (runPipeline ⟨none, fun _ => none⟩ s0 (strChars "ab") (strChars "g")
        (strChars "a")).finalState = s0 := by
  have h := claim_C2_outline_failure ⟨none, fun _ => none⟩ s0 (strChars "ab") (strChars "g")
    (strChars "a") (by decide) (Or.inl rfl)
  exact ⟨by decide, h.1, h.2.2.1, h.2.2.2⟩

/-- C3: a request whose keyword is empty or shorter than 2 characters after
stripping (which covers all-whitespace keywords), or whose genre or
audience is empty, yields a non-empty validation-error list; the run stops
as `validationFailed` with zero outline and section calls and an unchanged
session state.  A keyword whose stripped form has exactly 2 characters,
with genre and audience present, passes validation. -/
theorem claim_C3_validation :
    (∀ (client : GenClient) (s : SessionState) (kw ge au : List Char),
      (kw = [] ∨ (pyStrip kw).length < 2 ∨ ge = [] ∨ au = []) →
      (validate_inputs kw ge au).errors ≠ [] ∧
      (runPipeline client s kw ge au).outcome =
        .validationFailed (validate_inputs kw ge au).errors ∧
      (runPipeline client s kw ge au).outlineCalls = 0 ∧
      (runPipeline client s kw ge au).sectionCalls = 0 ∧
      (runPipeline client s kw ge au).finalState = s) ∧
    (∀ kw ge au : List Char, (pyStrip kw).length = 2 → ge ≠ [] → au ≠ [] →
      (validate_inputs kw ge au).is_valid = true) := by
  constructor
  · intro client s kw ge au hbad
    have herr : (validate_inputs kw ge au).errors ≠ [] := by
      rcases hbad with h | h | h | h <;> simp [validate_inputs, h]
    have hval : (validate_inputs kw ge au).is_valid = false := by
      have : (validate_inputs kw ge au).is_valid =
          (validate_inputs kw ge au).errors.isEmpty := rfl
      rw [this]
      simpa [List.isEmpty_iff] using herr
    have h := runPipeline_invalid client s kw ge au hval
    exact ⟨herr, by rw [h], by rw [h], by rw [h], by rw [h]⟩
  · intro kw ge au hlen hge hau
    refine (validate_inputs_valid_iff kw ge au).mpr ⟨?_, by omega, hge, hau⟩
    intro hkw
    rw [hkw] at hlen
    simp [pyStrip] at hlen

/-- Witness for C3: empty keyword fails with errors and no calls; the
two-character keyword `ab` with genre and audience present is valid. -/
theorem claim_C3_validation_witness :
    ((validate_inputs [] (strChars "g") (strChars "a")).errors ≠ [] ∧
     (runPipeline ⟨none, fun _ => none⟩ s0 [] (strChars "g") (strChars "a")).outcome =
       .validationFailed (validate_inputs [] (strChars "g") (strChars "a")).errors ∧
     (runPipeline ⟨none, fun _ => none⟩ s0 [] (strChars "g") (strChars "a")).outlineCalls = 0 ∧
     (runPipeline ⟨none, fun _ => none⟩ s0 [] (strChars "g") (strChars "a")).sectionCalls = 0 ∧
     (runPipeline ⟨none, fun _ => none⟩ s0 [] (strChars "g") (strChars "a")).finalState = s0) ∧
    (validate_inputs (strChars "ab") (strChars "g") (strChars "a")).is_valid = true :=
  ⟨claim_C3_validation.1 ⟨none, fun _ => none⟩ s0 [] (strChars "g") (strChars "a")
     (Or.inl rfl),
   claim_C3_validation.2 (strChars "ab") (strChars "g") (strChars "a")
     (by decide) (by decide) (by decide)⟩

/-- C4 counterexample: the title-only path issues a `generate_titles` call
for keyword `ab` although genre and target audience are both empty — the
claimed all-fields-present invariant does not hold for the title stage
(source lines 422-430 check only the API key and the keyword). -/
theorem claim_C4_counterexample :
    titleButtonRun true (strChars "ab") [] [] = some (strChars "ab", [], []) := by
  decide

/-- C4 amended: the article-generation pipeline issues a generation call
only when keyword (≥ 2 characters after stripping), genre, and audience
are all present; the title-only path checks only that the keyword is
present with stripped length ≥ 2, and may call with empty genre and
audience. -/
theorem claim_C4_amended :
    (∀ (client : GenClient) (s : SessionState) (kw ge au : List Char),
      ((runPipeline client s kw ge au).outlineCalls ≠ 0 ∨
       (runPipeline client s kw ge au).sectionCalls ≠ 0) →
      kw ≠ [] ∧ 2 ≤ (pyStrip kw).length ∧ ge ≠ [] ∧ au ≠ []) ∧
    (∀ (ak : Bool) (kw ge au : List Char) (args : List Char × List Char × List Char),
      titleButtonRun ak kw ge au = some args →
      kw ≠ [] ∧ 2 ≤ (pyStrip kw).length) := by
  constructor
  · intro client s kw ge au hcalls
    by_cases hv : (validate_inputs kw ge au).is_valid
    · exact (validate_inputs_valid_iff kw ge au).mp hv
    · exfalso
      have h := runPipeline_invalid client s kw ge au (by simpa using hv)
      rcases hcalls with hc | hc <;> rw [h] at hc <;> exact hc rfl
  · intro ak kw ge au args h
    simp only [titleButtonRun] at h
    split_ifs at h with hc
    obtain ⟨-, hk⟩ := hc
    push_neg at hk
    exact ⟨hk.1, by omega⟩

/-- Witness for C4 amended: a run that issued its outline call had all
three fields present; a title call issued for keyword `ab` has a keyword of
stripped length ≥ 2. -/
theorem claim_C4_amended_witness :
    ((runPipeline ⟨some (strChars "## A"), fun _ => some (strChars "B")⟩ s0
        (strChars "ab") (strChars "g") (strChars "a")).outlineCalls ≠ 0 ∨
     (runPipeline ⟨some (strChars "## A"), fun _ => some (strChars "B")⟩ s0
        (strChars "ab") (strChars "g") (strChars "a")).sectionCalls ≠ 0) ∧
    (strChars "ab" ≠ [] ∧ 2 ≤ (pyStrip (strChars "ab")).length ∧
     strChars "g" ≠ [] ∧ strChars "a" ≠ []) ∧
    (strChars "ab" ≠ [] ∧ 2 ≤ (pyStrip (strChars "ab")).length) :=
  ⟨by decide,
   claim_C4_amended.1 ⟨some (strChars "## A"), fun _ => some (strChars "B")⟩ s0
     (strChars "ab") (strChars "g") (strChars "a") (by decide),
   claim_C4_amended.2 true (strChars "ab") [] [] (strChars "ab", [], []) (by decide)⟩

/-- C5 counterexample: on text containing numbered items 1, 2 and 4 only,
`extract_titles_only` returns a THREE-element candidate list [item1, item2,
item4] — item 4 is located by its own independent search — not the
two-element list [item1, item2] the claim states. -/
theorem claim_C5_counterexample :
    (extract_titles_only (strChars "1. A\n2. B\n4. D\n")).title_candidates =
      [strChars "A", strChars "B", strChars "D"] ∧
    (extract_titles_only (strChars "1. A\n2. B\n4. D\n")).title_candidates.length ≠ 2 := by
  decide

/-- C5 amended: each of the five numbered positions is matched
independently, so a missing item i does not block locating item i+1: on a
well-formed five-item list with a trailing recommended line it returns
exactly 5 candidates in numeral order and a non-empty recommended title;
on text with items 1, 2 and 4 only it returns the 3-element list of items
1, 2 and 4 (no placeholder for the missing items 3 and 5). -/
theorem claim_C5_amended :
    (extract_titles_only (strChars "**タイトル候補:**\n1. Alpha\n2. Beta\n3. Gamma\n4. Delta\n5. Epsilon\n\n**推奨タイトル:** Alpha\n")).title_candidates =
      [strChars "Alpha", strChars "Beta", strChars "Gamma", strChars "Delta",
       strChars "Epsilon"] ∧
    (extract_titles_only (strChars "**タイトル候補:**\n1. Alpha\n2. Beta\n3. Gamma\n4. Delta\n5. Epsilon\n\n**推奨タイトル:** Alpha\n")).recommended_title =
      strChars "Alpha" ∧
    (extract_titles_only (strChars "**タイトル候補:**\n1. Alpha\n2. Beta\n3. Gamma\n4. Delta\n5. Epsilon\n\n**推奨タイトル:** Alpha\n")).recommended_title ≠ [] ∧
    (extract_titles_only (strChars "1. A\n2. B\n4. D\n")).title_candidates =
      [strChars "A", strChars "B", strChars "D"] := by
  decide

/-- C6 counterexample: after the closing heading line `## まとめ`, a
third-level heading line `### x` is STILL appended to the current section's
subsection list (the closing line neither opens a section nor clears the
current one), refuting the claim that attachment stops at the closing
heading line. -/
theorem claim_C6_counterexample :
    (extract_outline_structure (strChars "## A\n### a1\n## まとめ\n### x")).sections =
      [⟨strChars "A", [strChars "a1", strChars "x"]⟩] := by
  decide

/-- C6 amended: every Section's title comes from a line passing the
H2-opener test (second-level marker, not the closing heading marker), so
the closing heading line never opens a Section; when no line passes that
test the section list is empty (third-level lines before any second-level
line are dropped); and a third-level line keeps being appended to the
current Section until the next OPENING second-level line — the closing
heading line does not end the attachment, as the concrete run shows. -/
theorem claim_C6_amended (outline : List Char) :
    (∀ sec ∈ (extract_outline_structure outline).sections, fromOpenerLine sec) ∧
    ((∀ raw ∈ outline.splitOn '\n', isH2Opener (pyStrip raw) = false) →
      (extract_outline_structure outline).sections = []) ∧
    (extract_outline_structure
        (strChars "## A\n### a1\n## まとめ\n### x\n## B\n### b1")).sections =
      [⟨strChars "A", [strChars "a1", strChars "x"]⟩,
       ⟨strChars "B", [strChars "b1"]⟩] := by
  refine ⟨?_, ?_, by decide⟩
  · intro sec hmem
    have h := foldl_outlineStep_fromOpener (outline.splitOn '\n') ([], none)
      (by simp) (by simp)
    simp only [extract_outline_structure] at hmem
    rcases List.mem_append.mp hmem with hm | hm
    · exact h.1 sec hm
    · exact h.2 sec hm
  · intro hno
    simp [extract_outline_structure, foldl_outlineStep_no_opener _ hno]

/-- Witness for C6 amended: the section parsed from `## A…` originates from
an opener line, and a text whose only heading is a third-level line yields
no sections. -/
theorem claim_C6_amended_witness :
    ((⟨strChars "A", [strChars "a1", strChars "x"]⟩ : OutlineSection) ∈
      (extract_outline_structure (strChars "## A\n### a1\n## まとめ\n### x")).sections) ∧
    fromOpenerLine ⟨strChars "A", [strChars "a1", strChars "x"]⟩ ∧
    (extract_outline_structure (strChars "### zzz")).sections = [] :=
  ⟨by decide,
   (claim_C6_amended (strChars "## A\n### a1\n## まとめ\n### x")).1 _ (by decide),
   (claim_C6_amended (strChars "### zzz")).2.1 (by decide)⟩

/-- C7 counterexample: with a selected title `T`, the assembled article does
NOT begin with the selected-title heading `# T`: it begins with the
`**導入文:**` intro block, and the title heading appears only after the
intro block and the body label — refuting the claimed order in which the
selected-title heading comes first. -/
theorem claim_C7_counterexample :
    (runPipeline ⟨some (strChars "**導入文:** I\n## A"), fun _ => some (strChars "B")⟩
        ⟨[], false, strChars "T"⟩ (strChars "kw") (strChars "g") (strChars "a")).outcome =
      .done (strChars "**導入文:** I\n\n**記事本文:**\n\n# T\n\nI\n\nB\n\n## まとめ\n\n本記事では、kwについて詳しく解説しました。各ポイントを実践することで、aの方でも効果的に活用できるでしょう。") 1 ∧
    List.take 2 (strChars "**導入文:** I\n\n**記事本文:**\n\n# T\n\nI\n\nB\n\n## まとめ\n\n本記事では、kwについて詳しく解説しました。各ポイントを実践することで、aの方でも効果的に活用できるでしょう。") ≠
      strChars "# " := by
  decide

/-- C7 amended: every successful run's article is the concatenation, in
this order: the leading intro block (`**導入文:** ` + intro), the body
label `**記事本文:**`, THEN the optional selected-title heading, then the
intro a second time (the duplication), then each accumulated section body
in original order each followed by a blank line, then the fixed closing
section mentioning the keyword and the target audience verbatim. -/
theorem claim_C7_amended (client : GenClient) (s : SessionState) (kw ge au t : List Char)
    (hv : (validate_inputs kw ge au).is_valid = true)
    (hout : client.outlineResult = some t) (ht : t ≠ []) :
    (runPipeline client s kw ge au).outcome =
      .done (strChars "**導入文:** " ++ (extract_outline_structure t).intro ++
        strChars "\n\n" ++ strChars "**記事本文:**\n\n" ++
        (if s.selected_title = [] then []
         else strChars "# " ++ s.selected_title ++ strChars "\n\n") ++
        (extract_outline_structure t).intro ++ strChars "\n\n" ++
        ((successfulBodies client (extract_outline_structure t).sections.length).foldl
          (fun acc b => acc ++ b ++ strChars "\n\n") []) ++
        strChars "## まとめ\n\n" ++
        strChars "本記事では、" ++ kw ++ strChars "について詳しく解説しました。" ++
        strChars "各ポイントを実践することで、" ++ au ++
        strChars "の方でも効果的に活用できるでしょう。")
        (successfulBodies client (extract_outline_structure t).sections.length).length := by
  have hd := runPipeline_done client s kw ge au t hv hout ht
  rw [hd]
  rfl

/-- Witness for C7 amended at scenario A: outline with three sections, all
three section calls succeed — the article follows the template and the
section count is 3. -/
theorem claim_C7_amended_witness :
    ((validate_inputs (strChars "ab") (strChars "g") (strChars "a")).is_valid = true) ∧
    (successfulBodies ⟨some oB, fun i => some (strChars "B" ++ [Char.ofNat (49 + i)])⟩
      (extract_outline_structure oB).sections.length).length = 3 ∧
    (runPipeline ⟨some oB, fun i => some (strChars "B" ++ [Char.ofNat (49 + i)])⟩ s0
        (strChars "ab") (strChars "g") (strChars "a")).outcome =
      .done (strChars "**導入文:** " ++ (extract_outline_structure oB).intro ++
        strChars "\n\n" ++ strChars "**記事本文:**\n\n" ++
        (if s0.selected_title = [] then []
         else strChars "# " ++ s0.selected_title ++ strChars "\n\n") ++
        (extract_outline_structure oB).intro ++ strChars "\n\n" ++
        ((successfulBodies ⟨some oB, fun i => some (strChars "B" ++ [Char.ofNat (49 + i)])⟩
            (extract_outline_structure oB).sections.length).foldl
          (fun acc b => acc ++ b ++ strChars "\n\n") []) ++
        strChars "## まとめ\n\n" ++
        strChars "本記事では、" ++ strChars "ab" ++ strChars "について詳しく解説しました。" ++
        strChars "各ポイントを実践することで、" ++ strChars "a" ++
        strChars "の方でも効果的に活用できるでしょう。")
        (successfulBodies ⟨some oB, fun i => some (strChars "B" ++ [Char.ofNat (49 + i)])⟩
          (extract_outline_structure oB).sections.length).length :=
  ⟨by decide, by decide,
   claim_C7_amended ⟨some oB, fun i => some (strChars "B" ++ [Char.ofNat (49 + i)])⟩ s0
     (strChars "ab") (strChars "g") (strChars "a") oB (by decide) rfl (by decide)⟩

/-- C8: the parser functions are total Lean functions (they never raise by
construction) and degrade on unparsable input: on any text in which none of
the five numbered-item patterns, the recommended-title label, or the intro
label match, and no line passes the H2-opener test, `extract_titles_only`
returns an empty candidate list and empty recommended title,
`extract_outline_structure` an empty intro and empty section list, and
`extract_title_and_meta` the fixed not-found sentinel. -/
theorem claim_C8_parser_totality (text : List Char)
    (hnum : ∀ p ∈ titleNumerals, searchPat p text = none)
    (hrec : searchPat (strChars "**推奨タイトル:**") text = none)
    (hintro : searchPat (strChars "**導入文:**") text = none)
    (hnoH2 : ∀ raw ∈ text.splitOn '\n', isH2Opener (pyStrip raw) = false) :
    extract_titles_only text = ⟨[], []⟩ ∧
    extract_outline_structure text = ⟨[], []⟩ ∧
    extract_title_and_meta text = strChars "導入文が見つかりません" := by
  refine ⟨?_, ?_, ?_⟩
  · have h1 := hnum (strChars "1.") (by simp [titleNumerals])
    have h2 := hnum (strChars "2.") (by simp [titleNumerals])
    have h3 := hnum (strChars "3.") (by simp [titleNumerals])
    have h4 := hnum (strChars "4.") (by simp [titleNumerals])
    have h5 := hnum (strChars "5.") (by simp [titleNumerals])
    simp [extract_titles_only, titleNumerals, h1, h2, h3, h4, h5, hrec]
  · simp [extract_outline_structure, foldl_outlineStep_no_opener _ hnoH2, hintro]
  · simp [extract_title_and_meta, hintro]

/-- Witness for C8 on the unparsable text `hello world`. -/
theorem claim_C8_parser_totality_witness :
    (searchPat (strChars "**導入文:**") (strChars "hello world") = none) ∧
    extract_titles_only (strChars "hello world") = ⟨[], []⟩ ∧
    extract_outline_structure (strChars "hello world") = ⟨[], []⟩ ∧
    extract_title_and_meta (strChars "hello world") = strChars "導入文が見つかりません" :=
  ⟨by decide,
   claim_C8_parser_totality (strChars "hello world") (by decide) (by decide) (by decide)
     (by decide)⟩

/-- C9: on every successful run with N parsed sections the reported
progress sequence is 0, 25, 35, then for section i (1-indexed)
`⌊35 + 50 * i / N⌋` (the loop computes `int(35 + 50 * (i+1)/N)` with
0-based i), then 95 and 100; when N = 0 the loop body never runs, so no
division by zero is evaluated, no section call is made, and the run goes
straight to assembly, producing an article with zero section bodies. -/
theorem claim_C9_progress (client : GenClient) (s : SessionState) (kw ge au t : List Char)
    (hv : (validate_inputs kw ge au).is_valid = true)
    (hout : client.outlineResult = some t) (ht : t ≠ []) :
    (runPipeline client s kw ge au).progressEvents =
      [0, 25, 35] ++ (List.range (extract_outline_structure t).sections.length).map
        (fun i => 35 + (50 * (i + 1)) / (extract_outline_structure t).sections.length) ++
      [95, 100] ∧
    ((extract_outline_structure t).sections.length = 0 →
      (runPipeline client s kw ge au).sectionCalls = 0 ∧
      (runPipeline client s kw ge au).outcome =
        .done (assembleArticle (extract_outline_structure t).intro s.selected_title []
          kw au) 0) := by
  have hd := runPipeline_done client s kw ge au t hv hout ht
  refine ⟨by rw [hd], fun h0 => ⟨by rw [hd]; exact h0, ?_⟩⟩
  rw [hd]
  simp [successfulBodies, h0]

/-- Witness for C9 at an outline with no headings: N = 0, progress is
[0, 25, 35, 95, 100], no section call, and the article has no section
bodies. -/
theorem claim_C9_progress_witness :
    ((validate_inputs (strChars "ab") (strChars "g") (strChars "a")).is_valid = true) ∧
    (runPipeline ⟨some (strChars "plain"), fun _ => none⟩ s0 (strChars "ab") (strChars "g")
        (strChars "a")).progressEvents =
      [0, 25, 35] ++ (List.range (extract_outline_structure (strChars "plain")).sections.length).map
        (fun i => 35 + (50 * (i + 1)) /
          (extract_outline_structure (strChars "plain")).sections.length) ++ [95, 100] ∧
    (runPipeline ⟨some (strChars "plain"), fun _ => none⟩ s0 (strChars "ab") (strChars "g")
        (strChars "a")).sectionCalls = 0 ∧
    (runPipeline ⟨some (strChars "plain"), fun _ => none⟩ s0 (strChars "ab") (strChars "g")
        (strChars "a")).outcome =
      .done (assembleArticle (extract_outline_structure (strChars "plain")).intro
        s0.selected_title [] (strChars "ab") (strChars "a")) 0 := by
  have h := claim_C9_progress ⟨some (strChars "plain"), fun _ => none⟩ s0 (strChars "ab")
    (strChars "g") (strChars "a") (strChars "plain") (by decide) rfl (by decide)
  exact ⟨by decide, h.1, (h.2 (by decide)).1, (h.2 (by decide)).2⟩

/-- C10: the stored article and the completion flag are written only by a
run that reaches the success outcome, and then exactly to the assembled
article and `true`; any run that does not reach it (validation failure or
outline failure — the generator methods catch their own exceptions, and the
outer `except` branch of `main` writes no session key) leaves the entire
session state unchanged. -/
theorem claim_C10_atomic_update (client : GenClient) (s : SessionState)
    (kw ge au : List Char) :
    ((runPipeline client s kw ge au).outcome.isDone = false →
      (runPipeline client s kw ge au).finalState = s) ∧
    (∀ a n, (runPipeline client s kw ge au).outcome = .done a n →
      (runPipeline client s kw ge au).finalState =
        { s with generated_article := a, generation_completed := true }) := by
  by_cases hv : (validate_inputs kw ge au).is_valid
  · cases hout : client.outlineResult with
    | none =>
      have h := runPipeline_outlineFailed client s kw ge au hv (Or.inl hout)
      refine ⟨fun _ => by rw [h], fun a n ha => ?_⟩
      rw [h] at ha
      exact absurd ha (by simp)
    | some t =>
      by_cases ht : t = []
      · subst ht
        have h := runPipeline_outlineFailed client s kw ge au hv (Or.inr hout)
        refine ⟨fun _ => by rw [h], fun a n ha => ?_⟩
        rw [h] at ha
        exact absurd ha (by simp)
      · have hd := runPipeline_done client s kw ge au t hv hout ht
        constructor
        · intro hdone
          rw [hd] at hdone
          simp [RunOutcome.isDone] at hdone
        · intro a n ha
          rw [hd] at ha
          simp only [RunOutcome.done.injEq] at ha
          rw [hd, ← ha.1]
  · have h := runPipeline_invalid client s kw ge au (by simpa using hv)
    refine ⟨fun _ => by rw [h], fun a n ha => ?_⟩
    rw [h] at ha
    exact absurd ha (by simp)

/-- Witness for C10: a failed run leaves the previously stored article and
flag in place; a successful run stores exactly the assembled article with
the flag set. -/
theorem claim_C10_atomic_update_witness :
    ((runPipeline ⟨none, fun _ => none⟩ ⟨strChars "old", true, []⟩ (strChars "ab")
        (strChars "g") (strChars "a")).outcome.isDone = false) ∧
    ((runPipeline ⟨none, fun _ => none⟩ ⟨strChars "old", true, []⟩ (strChars "ab")
        (strChars "g") (strChars "a")).finalState = ⟨strChars "old", true, []⟩) ∧
    ((runPipeline ⟨some (strChars "## A"), fun _ => some (strChars "B")⟩ s0 (strChars "ab")
        (strChars "g") (strChars "a")).outcome =
      .done (strChars "**導入文:** \n\n**記事本文:**\n\n\n\nB\n\n## まとめ\n\n本記事では、abについて詳しく解説しました。各ポイントを実践することで、aの方でも効果的に活用できるでしょう。") 1) ∧
    ((runPipeline ⟨some (strChars "## A"), fun _ => some (strChars "B")⟩ s0 (strChars "ab")
        (strChars "g") (strChars "a")).finalState =
      { s0 with
         generated_article := strChars "**導入文:** \n\n**記事本文:**\n\n\n\nB\n\n## まとめ\n\n本記事では、abについて詳しく解説しました。各ポイントを実践することで、aの方でも効果的に活用できるでしょう。",
         generation_completed := true }) :=
  ⟨by decide,
   (claim_C10_atomic_update ⟨none, fun _ => none⟩ ⟨strChars "old", true, []⟩ (strChars "ab")
     (strChars "g") (strChars "a")).1 (by decide),
   by decide,
   (claim_C10_atomic_update ⟨some (strChars "## A"), fun _ => some (strChars "B")⟩ s0
     (strChars "ab") (strChars "g") (strChars "a")).2 _ 1 (by decide)⟩

end SEOBlog
